import Mathlib

/-!
Verification of the answer-structuring and document-assembly pipeline of the
AIVS accounting API (`business_api/api.py`).  The Python code is shallowly
embedded: strings are `List Char` at the core with `String` wrappers, the
specific anchored regular expressions of the source are implemented as
explicit scanning functions, and the two GPT calls plus the Mailjet call are
treated as external oracles (the spec declares them external boundaries).
Recursions that jump over more than one character use an explicit fuel
argument (always instantiated with more than the input length) so that every
definition evaluates inside the kernel.
-/

/-- Python whitespace characters recognised by `str.strip` and `\s`
(ASCII part, which is all the source data uses). -/
def isPyWS (c : Char) : Bool :=
  c = ' ' || c = '\t' || c = '\n' || c = '\r' || c = '\x0b' || c = '\x0c'

/-- `str.strip()` on a character list. -/
def pyStripL (l : List Char) : List Char :=
  ((l.dropWhile isPyWS).reverse.dropWhile isPyWS).reverse

/-- `str.strip()`. -/
def pyStrip (s : String) : String :=
  String.mk (pyStripL s.data)

/-- `str.upper()` (ASCII). -/
def pyUpper (s : String) : String :=
  String.mk (s.data.map Char.toUpper)

/-- `str.lower()` (ASCII). -/
def pyLower (s : String) : String :=
  String.mk (s.data.map Char.toLower)

/-- Literal (case-sensitive) pattern match at the head of a list. -/
def startsL : List Char → List Char → Bool
  | [], _ => true
  | _ :: _, [] => false
  | p :: ps, c :: cs => if p = c then startsL ps cs else false

/-- Case-insensitive pattern match at the head of a list
(Python `re.IGNORECASE` on ASCII). -/
def ciStarts : List Char → List Char → Bool
  | [], _ => true
  | _ :: _, [] => false
  | p :: ps, c :: cs => if p.toLower = c.toLower then ciStarts ps cs else false

/-- Python `str.splitlines` (line boundaries used by the source:
`\n`, `\r\n`, `\r` and the remaining one-character boundaries).
A trailing boundary does not open a final empty line. -/
def pySplitlinesAux (cur : List Char) : List Char → List (List Char)
  | [] => [cur.reverse]
  | '\r' :: '\n' :: rest =>
    cur.reverse :: (if rest.isEmpty then [] else pySplitlinesAux [] rest)
  | c :: rest =>
    if c = '\n' || c = '\r' || c = '\x0b' || c = '\x0c' ||
       c = '\x1c' || c = '\x1d' || c = '\x1e' || c = '\x85' ||
       c = '\u2028' || c = '\u2029' then
      cur.reverse :: (if rest.isEmpty then [] else pySplitlinesAux [] rest)
    else
      pySplitlinesAux (c :: cur) rest

/-- `str.splitlines()`. -/
def pySplitlines (l : List Char) : List (List Char) :=
  if l.isEmpty then [] else pySplitlinesAux [] l

/-!  ## The section split, `re.split(r'^### (.*?)\n', answer, flags=re.MULTILINE)`

A heading match sits at a line start, consists of the literal `"### "`, a
title made of the following characters up to the next `'\n'`, and that
newline.  `splitSecsF` returns the text before the first heading together
with the `(title, following segment)` pairs, exactly the alternating parts
produced by `re.split` with one capture group. -/

/-- Does a heading match start here?  (Needs the `"### "` literal and a
terminating newline somewhere after it.) -/
def headingHere (l : List Char) : Bool :=
  startsL "### ".data l && !((l.drop 4).dropWhile (fun c => c ≠ '\n')).isEmpty

/-- Captured title of a heading match starting here. -/
def titleOf (l : List Char) : List Char :=
  (l.drop 4).takeWhile (fun c => c ≠ '\n')

/-- Characters following the newline of a heading match starting here. -/
def afterHeading (l : List Char) : List Char :=
  ((l.drop 4).dropWhile (fun c => c ≠ '\n')).drop 1

/-- Fuelled section splitter; `atLS` records whether the current position is
a line start (`^` with `re.MULTILINE`). -/
def splitSecsF : Nat → Bool → List Char →
    List Char × List (List Char × List Char)
  | 0, _, l => (l, [])
  | _ + 1, _, [] => ([], [])
  | f + 1, atLS, c :: rest =>
    if atLS && headingHere (c :: rest) then
      let t := titleOf (c :: rest)
      let r := splitSecsF f true (afterHeading (c :: rest))
      ([], (t, r.1) :: r.2)
    else
      let r := splitSecsF f (c = '\n') rest
      (c :: r.1, r.2)

/-- The section split of an answer string. -/
def splitSecs (answer : String) : List Char × List (List Char × List Char) :=
  splitSecsF (answer.data.length + 1) true answer.data

/-- Number of well-formed headings in an answer. -/
def headingCount (answer : String) : Nat :=
  (splitSecs answer).2.length

/-!  ## Building the structured mapping (api.py lines 492-514) -/

/-- Python `dict` assignment on an insertion-ordered association list:
an existing key keeps its position and gets the new value, a new key is
appended. -/
def insertLWW (acc : List (String × String)) (k v : String) :
    List (String × String) :=
  if acc.any (fun p => p.1 = k) then
    acc.map (fun p => if p.1 = k then (k, v) else p)
  else
    acc ++ [(k, v)]

/-- `re.sub(r'^\s*Enquirer Reply\s*', '', content, flags=re.IGNORECASE)`. -/
def dropEnq (l : List Char) : List Char :=
  let t := l.dropWhile isPyWS
  if ciStarts "Enquirer Reply".data t then (t.drop 14).dropWhile isPyWS else l

/-- `re.sub(r'^\s*Hello,\s*', '', content, flags=re.IGNORECASE)`. -/
def dropHello (l : List Char) : List Char :=
  let t := l.dropWhile isPyWS
  if ciStarts "Hello,".data t then (t.drop 6).dropWhile isPyWS else l

/-- Does a line fully match `^\s*(enquirer reply|hello,?)\s*$` (IGNORECASE)? -/
def isGreetLine (line : List Char) : Bool :=
  let t := line.dropWhile isPyWS
  (ciStarts "enquirer reply".data t && (t.drop 14).all isPyWS) ||
  (ciStarts "hello".data t &&
    (match t.drop 5 with
     | ',' :: r => r.all isPyWS
     | r => r.all isPyWS))

/-- Line-level cleaning applied to sections titled (after lowering)
"enquirer reply" or "initial response" (api.py lines 505-507). -/
def cleanERlines (content : String) : String :=
  let ls := (pySplitlines content.data).filter (fun line => !(isGreetLine line))
  pyStrip (String.mk (List.intercalate ['\n'] ls))

/-- The loop body over the `(title, body)` pairs of the split
(api.py lines 501-508): titles and bodies are stripped, a stripped-empty
title is falsy so its body is skipped, greeting lines are removed for the
two special titles, and assignment is last-write-wins. -/
def buildStructured (acc : List (String × String)) :
    List (List Char × List Char) → List (String × String)
  | [] => acc
  | (tp, cp) :: rest =>
    let t := String.mk (pyStripL tp)
    let c := String.mk (pyStripL cp)
    if t = "" then
      buildStructured acc rest
    else
      let c :=
        if pyLower t = "enquirer reply" || pyLower t = "initial response" then
          cleanERlines c
        else c
      buildStructured (insertLWW acc t c) rest

/-- `structure(rawText)`: the full structuring step of api.py lines 491-514,
including the leading "Enquirer Reply" capture and the one-section
"Initial Response" fallback. -/
def structureFn (answer : String) : List (String × String) :=
  let s := splitSecs answer
  let leadC := pyStripL s.1
  let acc0 : List (String × String) :=
    if leadC.isEmpty then []
    else [("Enquirer Reply", String.mk (dropHello (dropEnq leadC)))]
  let structured := buildStructured acc0 s.2
  if structured.isEmpty then [("Initial Response", pyStrip answer)]
  else structured

/-- Display renaming applied when a section heading is emitted
(api.py line 516): `rename = {"Enquirer Reply": "Initial Response"}`. -/
def renameTitle (t : String) : String :=
  if t = "Enquirer Reply" then "Initial Response" else t

/-!  ## Document rendering (api.py lines 377-557)

A rendered document is modelled as the list of paragraphs emitted by the
successive `doc.add_paragraph` calls; a paragraph is either a plain one
(`Block.para`, text of its runs concatenated) or one with the
`'List Number'` style (`Block.item`). -/

/-- One paragraph of the Word document. -/
inductive Block where
  | para (text : String)
  | item (text : String)
deriving DecidableEq

/-- Bullet characters of the list-normalising regexes: `[-•–]`. -/
def isBullet (c : Char) : Bool :=
  c = '-' || c = '•' || c = '–'

/-- `re.sub(r'^[-•–]?\s*\d+[.)]?\s*', '', clean)`: an optional bullet,
whitespace, at least one digit, an optional `.` or `)`, whitespace.  If the
digits are missing the pattern cannot match with or without the optional
bullet, so the line is returned unchanged. -/
def stripNum (l : List Char) : List Char :=
  let r1 := if isBullet (l.headD ' ') then l.tail else l
  let r2 := r1.dropWhile isPyWS
  if (r2.headD ' ').isDigit then
    let r3 := r2.dropWhile Char.isDigit
    let r4 := if r3.headD ' ' = '.' || r3.headD ' ' = ')' then r3.tail else r3
    r4.dropWhile isPyWS
  else l

/-- `re.sub(r'^[-•–]\s*', '', clean)`. -/
def stripBullet (l : List Char) : List Char :=
  if isBullet (l.headD ' ') then l.tail.dropWhile isPyWS else l

/-- Normalisation of one list line (api.py lines 528-530):
strip, remove a manual number prefix, remove a manual bullet prefix. -/
def normLine (line : List Char) : List Char :=
  stripBullet (stripNum (pyStripL line))

/-- The numbered entries rendered for an "Action Sheet" / "Policy Notes"
section body: every line normalised, lines empty after normalisation
dropped (api.py lines 526-533). -/
def numberedEntries (body : String) : List String :=
  (((pySplitlines body.data).map normLine).filter
    (fun l => !l.isEmpty)).map String.mk

/-- Search for the closing `**` of a bold group on the current line:
returns the group text and the characters after the closing marker
(the lazy group of `re.sub(r'\*\*(.*?)\*\*', r'\1', text)` cannot
contain a newline). -/
def findClose : List Char → Option (List Char × List Char)
  | '*' :: '*' :: rest => some ([], rest)
  | [] => none
  | c :: rest =>
    if c = '\n' then none
    else (findClose rest).map (fun p => (c :: p.1, p.2))

/-- `re.sub(r'\*\*(.*?)\*\*', r'\1', text)` with fuel: markdown bold
markers around a group are removed, unpaired markers are kept. -/
def stripBoldF : Nat → List Char → List Char
  | 0, l => l
  | _ + 1, [] => []
  | f + 1, '*' :: '*' :: rest =>
    match findClose rest with
    | some (g, a) => g ++ stripBoldF f a
    | none => '*' :: '*' :: stripBoldF f rest
  | f + 1, c :: rest => c :: stripBoldF f rest

/-- Bold-marker removal applied to default-path section bodies
(api.py line 546). -/
def stripBold (s : String) : String :=
  String.mk (stripBoldF (s.data.length + 1) s.data)

/-- The divider paragraph `"─" * 44` used throughout the document. -/
def divider : String :=
  "────────────────────────────────────────────"

/-- The fixed disclaimer paragraph (api.py line 555). -/
def disclaimerText : String :=
  "This document was generated by AIVS Software Limited using AI assistance (OpenAI). Please review for accuracy and relevance before taking any formal action."

/-- The fixed copyright paragraph (api.py line 556). -/
def copyrightText : String :=
  "© AIVS Software Limited 2025. All rights reserved."

/-- Rendering of one structured section (api.py lines 517-551): an
uppercased display heading, then either the numbered entries (raw title
"Action Sheet" or "Policy Notes") or one default paragraph with bold
markers removed. -/
def renderSection (sec : String × String) : List Block :=
  Block.para (pyUpper (renameTitle sec.1)) ::
  (if sec.1 = "Action Sheet" || sec.1 = "Policy Notes" then
    (numberedEntries sec.2).map Block.item
  else
    [Block.para (stripBold sec.2)])

/-- The fixed front matter (api.py lines 377-489): title block, generated
timestamp, quoted original query between dividers, AI-response banner.
`generatedDT` and `footerDT` below stand for the two separately recomputed
`datetime.now(ZoneInfo("Europe/London")).strftime(...)` values. -/
def renderHeader (fullName queryText generatedDT : String) : List Block :=
  [Block.para ("RESPONSE FOR " ++ pyUpper fullName),
   Block.para ("Generated: " ++ generatedDT),
   Block.para "ORIGINAL QUERY",
   Block.para divider,
   Block.para ("\"" ++ pyStrip queryText ++ "\""),
   Block.para divider,
   Block.para "AI RESPONSE",
   Block.para "Note: This report was prepared using AI analysis based on the submitted query.",
   Block.para divider]

/-- The fixed back matter (api.py lines 553-557): an empty paragraph, a
divider, the disclaimer, the copyright line, and the freshly recomputed
timestamp footer. -/
def renderFooter (footerDT : String) : List Block :=
  [Block.para "",
   Block.para divider,
   Block.para disclaimerText,
   Block.para copyrightText,
   Block.para ("Report generated on " ++ footerDT)]

/-- The full document layout (api.py lines 377-557). -/
def renderDoc (structured : List (String × String))
    (fullName queryText generatedDT footerDT : String) : List Block :=
  renderHeader fullName queryText generatedDT ++
  (structured.map renderSection).flatten ++
  renderFooter footerDT

/-!  ## Removal of "### ORIGINAL QUERY" sections (api.py line 366)

`re.sub(r"### ORIGINAL QUERY\s*[\r\n]+.*?(?=###|\Z)", "", answer,
flags=re.IGNORECASE | re.DOTALL)`: wherever the literal
`"### ORIGINAL QUERY"` (case-insensitively) is followed by whitespace
containing at least one `\r`/`\n`, everything up to the next `"###"` or the
end of the text is removed. -/

/-- Does the leading whitespace run contain a `\r` or `\n`
(the `\s*[\r\n]+` part of the pattern)? -/
def hasNLinWS : List Char → Bool
  | [] => false
  | c :: rest =>
    if c = '\n' || c = '\r' then true
    else if isPyWS c then hasNLinWS rest
    else false

/-- Does a match of the removal pattern start here? -/
def isOQAt (l : List Char) : Bool :=
  ciStarts "### ORIGINAL QUERY".data l && hasNLinWS (l.drop 18)

/-- The lazy body with lookahead `.*?(?=###|\Z)`: drop characters until the
remaining text starts with `"###"`, or to the end. -/
def dropToHashes : List Char → List Char
  | [] => []
  | c :: rest =>
    if startsL "###".data (c :: rest) then c :: rest else dropToHashes rest

/-- Fuelled scanner for the removal substitution (left-to-right,
non-overlapping, scanning resumes after each removed span, as `re.sub`
does). -/
def removeOQF : Nat → List Char → List Char
  | 0, l => l
  | _ + 1, [] => []
  | f + 1, c :: rest =>
    if isOQAt (c :: rest) then
      removeOQF f (dropToHashes (rest.drop 17))
    else
      c :: removeOQF f rest

/-- The removal pass on a character list. -/
def removeOQ (l : List Char) : List Char :=
  removeOQF (l.length + 1) l

/-- api.py line 366: remove the "### ORIGINAL QUERY" sections from the
model answer and strip the result. -/
def cleanAnswer (answer : String) : String :=
  pyStrip (String.mk (removeOQ answer.data))

/-!  ## The two GPT calls (api.py lines 127-259)

The chat-completion endpoint is an external capability; its two invocations
are an oracle with one function per call site.  `complete` receives the
composed prompt, `review` receives the discipline and the cleaned,
truncated draft embedded in the review prompt. -/

/-- External GPT capability: the initial completion and the review pass. -/
structure Gpt where
  complete : String → String
  review : String → String → String

/-- `initial_response.split("### Context from FAISS Index:")[0]`:
text before the first occurrence of the literal separator. -/
def beforeContextLit : List Char → List Char
  | [] => []
  | c :: rest =>
    if startsL "### Context from FAISS Index:".data (c :: rest) then []
    else c :: beforeContextLit rest

/-- Does one of the sign-off phrases of
`re.sub(r'(Best regards,|Yours sincerely,|Kind regards,)[\s\S]*$', ...)`
start here (IGNORECASE)? -/
def signoffAt (l : List Char) : Bool :=
  ciStarts "Best regards,".data l ||
  ciStarts "Yours sincerely,".data l ||
  ciStarts "Kind regards,".data l

/-- Remove everything from the first sign-off phrase to the end. -/
def stripSignoffL : List Char → List Char
  | [] => []
  | c :: rest =>
    if signoffAt (c :: rest) then [] else c :: stripSignoffL rest

/-- `generate_reviewed_response(prompt, discipline)` (api.py lines 166-259):
the initial completion is stripped; a draft longer than 1500 characters is
returned directly and the review pass is skipped; otherwise sign-offs are
removed, the draft is cut before any embedded FAISS-context block,
truncated to 2000 characters and sent to the review call. -/
def generateReviewedResponse (gpt : Gpt) (prompt discipline : String) :
    String :=
  let initialResponse := pyStrip (gpt.complete prompt)
  if 1500 < initialResponse.length then
    initialResponse
  else
    let initialResponse2 := pyStrip (String.mk (stripSignoffL initialResponse.data))
    let strippedResponse := pyStrip (String.mk (beforeContextLit initialResponse2.data))
    let strippedResponse2 := String.mk (strippedResponse.data.take 2000)
    pyStrip (gpt.review discipline strippedResponse2)

/-- The prompt template of `ask_gpt_with_context` (api.py lines 138-163). -/
def composePrompt (query context funnel1 funnel2 funnel3 : String) : String :=
  "\nYou are responding to a professional business query via a secure reporting system.\n\nAll responses must:\n- Be based on correct UK financial standards, accounting regulations, business risk practices, or strategic management theory.\n- Use British English spelling and tone.\n\n### Enquiry:\n\"" ++
  query ++
  "\"\n\n### Context from FAISS Index:\n" ++
  context ++
  "\n\n\n### Additional Focus:\n- Support Need: " ++
  funnel1 ++
  "\n- Current Status: " ++
  funnel2 ++
  "\n- Follow-Up Expectation: " ++
  funnel3 ++
  "\n\n### Your Task:\nPlease generate a structured response that includes:\n\n1. **Client Reply** – plain English appropriate for senior business audiences.\n2. **Action Sheet** – bullet-point recommended actions.\n3. **Policy or Standard Notes** – cite relevant accounting standards, regulatory codes, or strategic management principles if applicable.\n"

/-!  ## The /generate endpoint (api.py lines 319-596) -/

/-- The JSON payload fields read by the endpoint (each may be absent). -/
structure ReqData where
  query : Option String
  fullName : Option String
  userEmail : Option String
  supervisorEmail : Option String
  hrEmail : Option String
  supervisorName : Option String
  discipline : Option String
  funnel1 : Option String
  funnel2 : Option String
  funnel3 : Option String
deriving DecidableEq

/-- External state of one request: whether the FAISS index loaded at
startup, the joined retrieved chunks, the GPT capability, and the two
formatted London timestamps taken while rendering. -/
structure Oracle where
  faissLoaded : Bool
  retrieved : String
  gpt : Gpt
  generatedDT : String
  footerDT : String

/-- `ask_gpt_with_context(data, context)` (api.py lines 127-164). -/
def askGptWithContext (gpt : Gpt) (data : ReqData) (context : String) :
    String :=
  let query := data.query.getD ""
  let discipline := data.discipline.getD "Not specified"
  let funnel1 := data.funnel1.getD "Not specified"
  let funnel2 := data.funnel2.getD "Not specified"
  let funnel3 := data.funnel3.getD "Not specified"
  generateReviewedResponse gpt
    (composePrompt query context funnel1 funnel2 funnel3) discipline

/-- HTTP outcome of the request: a returned response, or an uncaught
Python exception (which Flask converts to a 500-class error page). -/
inductive Outcome where
  | resp (code : Nat) (body : String)
  | exn (name : String)
deriving DecidableEq

/-- Result of one request: the outcome, the document saved to disk (if
`doc.save` was reached) and whether the Mailjet send was issued. -/
structure GenResult where
  outcome : Outcome
  savedDoc : Option (List Block)
  emailSent : Bool
deriving DecidableEq

/-- Python truthiness of an optional string field (`if user_email:`). -/
def optTruthy : Option String → Bool
  | none => false
  | some s => !(s = "")

/-- The recipient list (api.py lines 562-568), `(email, display name)`. -/
def buildRecipients (data : ReqData) (fullName supervisorName : String) :
    List (String × String) :=
  (if optTruthy data.userEmail then [(data.userEmail.getD "", fullName)] else []) ++
  (if optTruthy data.supervisorEmail then [(data.supervisorEmail.getD "", supervisorName)] else []) ++
  (if optTruthy data.hrEmail then [(data.hrEmail.getD "", "HR Department")] else [])

/-- The `/generate` route (api.py lines 319-596).  `body = none` models a
request whose JSON could not be parsed (caught, 400).  A missing `query`
leaves `query_text = None`, and the first attribute access on it —
`query_text.replace` inside the embedding call when the index is loaded,
otherwise `query_text.strip()` while rendering — raises an uncaught
`AttributeError` before `doc.save`.  With no truthy recipient the route
returns 400 only after the document has been saved. -/
def generateResponse (body : Option ReqData) (o : Oracle) : GenResult :=
  match body with
  | none => ⟨Outcome.resp 400 "Invalid JSON input", none, false⟩
  | some data =>
    if o.faissLoaded && data.query.isNone then
      ⟨Outcome.exn "AttributeError", none, false⟩
    else
      let context :=
        if o.faissLoaded then o.retrieved
        else "Policy lookup not available (FAISS index not loaded)."
      let answer := cleanAnswer (askGptWithContext o.gpt data context)
      let fullName := data.fullName.getD "User"
      let supervisorName := data.supervisorName.getD "Supervisor"
      match data.query with
      | none => ⟨Outcome.exn "AttributeError", none, false⟩
      | some q =>
        let structured := structureFn answer
        let doc := renderDoc structured fullName q o.generatedDT o.footerDT
        let recipients := buildRecipients data fullName supervisorName
        if recipients.isEmpty then
          ⟨Outcome.resp 400 "No valid email addresses provided.", some doc, false⟩
        else
          ⟨Outcome.resp 200 "ok", some doc, true⟩

/-!  ## Concrete inputs used by the witnesses and counterexamples -/

/-- The scenario draft of the spec:
`"### Client Reply\nHello.\n### Action Sheet\n1. File accounts\n- Notify HR"`. -/
def draftC3 : String :=
  "### Client Reply\nHello.\n### Action Sheet\n1. File accounts\n- Notify HR"

/-- A well-formed payload that merely lacks the `query` field. -/
def reqNoQuery : ReqData :=
  ⟨none, some "Ann Smith", some "ann@example.com", none, none,
   some "Sam Lee", some "Accounting", none, none, none⟩

/-- A payload with a query but with no recipient email at all. -/
def reqNoEmails : ReqData :=
  ⟨some "How are accruals reported?", some "Ann Smith", none, none, none,
   some "Sam Lee", some "Accounting", none, none, none⟩

/-- A small deterministic GPT oracle for concrete runs. -/
def gptTest : Gpt :=
  ⟨fun _ => "### Client Reply\nAccruals are recognised when incurred.",
   fun _ draft => draft⟩

/-- A GPT oracle whose initial completion exceeds the 1500-character
review threshold. -/
def gptBig : Gpt :=
  ⟨fun _ => String.mk (List.replicate 1501 'a'), fun _ draft => draft⟩

/-- External state for concrete runs (index not loaded, fixed London
timestamps). -/
def oracleTest : Oracle :=
  ⟨false, "", gptTest, "01 May 2025 at 10:15:00 (BST)",
   "01 May 2025 at 10:15:01 (BST)"⟩

/-!  # Helper lemmas -/

theorem splitSecsF_pairs_nil : ∀ (f : Nat) (b : Bool) (l : List Char),
    (splitSecsF f b l).2 = [] → (splitSecsF f b l).1 = l := by
  intro f
  induction f with
  | zero => intro b l _; rfl
  | succ n ih =>
    intro b l h
    cases l with
    | nil => rfl
    | cons c rest =>
      simp only [splitSecsF] at h ⊢
      split at h
      · simp at h
      · next hcond =>
        rw [if_neg hcond]
        simp only [List.cons.injEq, true_and]
        exact ih _ rest h

theorem insertLWW_length (acc : List (String × String)) (k v : String) :
    (insertLWW acc k v).length ≤ acc.length + 1 := by
  unfold insertLWW
  split
  · simp
  · simp

theorem buildStructured_length : ∀ (ps : List (List Char × List Char))
    (acc : List (String × String)),
    (buildStructured acc ps).length ≤ acc.length + ps.length := by
  intro ps
  induction ps with
  | nil => intro acc; simp [buildStructured]
  | cons p rest ih =>
    intro acc
    obtain ⟨tp, cp⟩ := p
    simp only [buildStructured]
    split
    · calc (buildStructured acc rest).length ≤ acc.length + rest.length := ih acc
        _ ≤ acc.length + (rest.length + 1) := by omega
    · calc (buildStructured (insertLWW acc _ _) rest).length
          ≤ (insertLWW acc _ _).length + rest.length := ih _
        _ ≤ acc.length + 1 + rest.length := by
            exact Nat.add_le_add_right (insertLWW_length acc _ _) _
        _ = acc.length + (rest.length + 1) := by omega

theorem map_fst_update (acc : List (String × String)) (k v : String) :
    (acc.map (fun p => if p.1 = k then (k, v) else p)).map Prod.fst =
      acc.map Prod.fst := by
  induction acc with
  | nil => rfl
  | cons a t ih =>
    simp only [List.map_cons, ih, List.cons.injEq, and_true]
    by_cases h : a.1 = k <;> simp [h]

theorem insertLWW_keys_nodup (acc : List (String × String)) (k v : String)
    (h : (acc.map Prod.fst).Nodup) :
    ((insertLWW acc k v).map Prod.fst).Nodup := by
  unfold insertLWW
  split
  · rw [map_fst_update]; exact h
  · next hna =>
    rw [List.map_append]
    refine List.Nodup.append h (by simp) ?_
    intro x hx hk
    simp only [List.map_cons, List.map_nil, List.mem_singleton] at hk
    subst hk
    obtain ⟨p, hp, hpk⟩ := List.mem_map.mp hx
    exact hna (List.any_eq_true.mpr ⟨p, hp, by simp [hpk]⟩)

theorem buildStructured_keys_nodup : ∀ (ps : List (List Char × List Char))
    (acc : List (String × String)), (acc.map Prod.fst).Nodup →
    ((buildStructured acc ps).map Prod.fst).Nodup := by
  intro ps
  induction ps with
  | nil => intro acc h; exact h
  | cons p rest ih =>
    intro acc h
    obtain ⟨tp, cp⟩ := p
    simp only [buildStructured]
    split
    · exact ih acc h
    · exact ih _ (insertLWW_keys_nodup acc _ _ h)

/-!  # Claims C1 and C2 -/

/-- C1, counterexample: on the heading-free raw text `"Hello, world"` the
structuring step returns the single section under the raw title
`"Enquirer Reply"` (not `"Initial Response"`), and its body is `"world"`,
not the trimmed input (the greeting was stripped), so the claim as stated
fails here. -/
theorem c1_counterexample :
    headingCount "Hello, world" = 0 ∧
    structureFn "Hello, world" = [("Enquirer Reply", "world")] ∧
    structureFn "Hello, world" ≠ [("Initial Response", pyStrip "Hello, world")] := by
  refine ⟨by decide, by decide, by decide⟩

/-- C1 (amended): for every raw text with zero heading markers the
structuring step returns exactly one section; its raw title is
"Enquirer Reply" when the trimmed input is nonempty (the "Initial Response"
fallback title appears only for whitespace-only input), its display title
is always "Initial Response", and its body is the trimmed input with one
leading "Enquirer Reply" marker and then one leading "Hello," greeting
removed. -/
theorem c1_no_heading_single_section (answer : String)
    (h : headingCount answer = 0) :
    structureFn answer =
      [((if pyStrip answer = "" then "Initial Response" else "Enquirer Reply"),
        String.mk (dropHello (dropEnq (pyStripL answer.data))))] ∧
    renameTitle
      (if pyStrip answer = "" then "Initial Response" else "Enquirer Reply") =
      "Initial Response" := by
  have h2 : (splitSecs answer).2 = [] := List.length_eq_zero.mp h
  have h1 : (splitSecs answer).1 = answer.data := splitSecsF_pairs_nil _ _ _ h2
  have hs : splitSecs answer = (answer.data, []) := by
    rw [← h1, ← h2]
  constructor
  · simp only [structureFn, hs]
    by_cases hc : pyStripL answer.data = []
    · simp [hc, pyStrip, buildStructured, dropEnq, dropHello, ciStarts]
    · have hne : pyStrip answer ≠ "" := by
        simp only [pyStrip]
        intro hmk
        exact hc (by simpa using congrArg String.data hmk)
      simp [hc, hne, buildStructured]
  · by_cases hc : pyStrip answer = "" <;> simp [hc, renameTitle]

/-- C1 witness: the amended statement instantiated at the heading-free
input `"Hello, world"`. -/
theorem c1_witness :
    headingCount "Hello, world" = 0 ∧
    (structureFn "Hello, world" =
      [((if pyStrip "Hello, world" = "" then "Initial Response"
         else "Enquirer Reply"),
        String.mk (dropHello (dropEnq (pyStripL "Hello, world".data))))] ∧
    renameTitle
      (if pyStrip "Hello, world" = "" then "Initial Response"
       else "Enquirer Reply") = "Initial Response") :=
  ⟨by decide, c1_no_heading_single_section "Hello, world" (by decide)⟩

/-- C2, counterexample: `"lead\n### T\nb"` has one well-formed heading but
the structuring step returns two sections (the captured leading text adds
one), so "at most as many sections as headings" fails. -/
theorem c2_counterexample :
    ¬ (structureFn "lead\n### T\nb").length ≤ headingCount "lead\n### T\nb" := by
  decide

/-- C2 (amended): the structuring step returns at most N+1 sections for N
well-formed headings (the extra one coming from nonempty text before the
first heading); each title occurs at most once (duplicates collapse), a
repeated identical title keeps its first position with the later body
winning, while titles differing only in case are kept as distinct
sections in first-seen order. -/
theorem c2_section_bounds_and_duplicates :
    (∀ answer : String,
      (structureFn answer).length ≤ headingCount answer + 1 ∧
      ((structureFn answer).map Prod.fst).Nodup) ∧
    structureFn "### A\nx\n### A\ny" = [("A", "y")] ∧
    structureFn "### A\nx\n### a\ny" = [("A", "x"), ("a", "y")] := by
  refine ⟨fun answer => ⟨?_, ?_⟩, by decide, by decide⟩
  · simp only [structureFn, headingCount]
    split <;> split <;> try simp
    · refine le_trans (buildStructured_length _ _) ?_
      simp
    · refine le_trans (buildStructured_length _ _) ?_
      simp
      omega
  · simp only [structureFn]
    split <;> split <;> try simp
    · exact buildStructured_keys_nodup _ _ (by simp)
    · exact buildStructured_keys_nodup _ _ (by simp)

/-!  # Claims C3 and C4 -/

/-- C3, counterexample: on the scenario draft the structured mapping keeps
the manual bullet/number markers in the "Action Sheet" body (marker
stripping happens only while rendering), so the claimed mapping value
`"File accounts\nNotify HR"` is wrong. -/
theorem c3_counterexample :
    List.lookup "Action Sheet" (structureFn draftC3) =
      some "1. File accounts\n- Notify HR" ∧
    structureFn draftC3 ≠
      [("Client Reply", "Hello."),
       ("Action Sheet", "File accounts\nNotify HR")] := by
  refine ⟨by decide, by decide⟩

/-- C3 (amended): the scenario draft structures into
`{"Client Reply": "Hello.", "Action Sheet": "1. File accounts\n- Notify HR"}`
(the raw list lines are kept in the mapping), and the rendered document
contains an "ACTION SHEET" heading followed by the two numbered entries
"File accounts" and "Notify HR" with their manual markers removed. -/
theorem c3_scenario (fullName queryText g f : String) :
    structureFn draftC3 =
      [("Client Reply", "Hello."),
       ("Action Sheet", "1. File accounts\n- Notify HR")] ∧
    ∃ l r, renderDoc (structureFn draftC3) fullName queryText g f =
      l ++ [Block.para "ACTION SHEET", Block.item "File accounts",
            Block.item "Notify HR"] ++ r := by
  constructor
  · decide
  · exact ⟨renderHeader fullName queryText g ++
      [Block.para "CLIENT REPLY", Block.para "Hello."], renderFooter f, rfl⟩

/-- C4, counterexample: the leading text `"Hello,\nHello,\nworld"` has its
first greeting stripped but the captured body still begins with a
"Hello," line, refuting "never begins with a Hello, line". -/
theorem c4_counterexample :
    structureFn "Hello,\nHello,\nworld" =
      [("Enquirer Reply", "Hello,\nworld")] ∧
    startsL "Hello,\n".data "Hello,\nworld".data = true := by
  refine ⟨by decide, by decide⟩

theorem dropWhile_dropWhile (p : Char → Bool) (l : List Char) :
    (l.dropWhile p).dropWhile p = l.dropWhile p := by
  induction l with
  | nil => rfl
  | cons c rest ih =>
    by_cases h : p c
    · simp [List.dropWhile_cons, h, ih]
    · simp [List.dropWhile_cons, h]

theorem insertLWW_head (acc : List (String × String)) (k v : String)
    (a : String × String) (hne : a.1 ≠ k) (hh : acc.head? = some a) :
    (insertLWW acc k v).head? = some a := by
  unfold insertLWW
  split
  · cases acc with
    | nil => simp at hh
    | cons x t =>
      simp only [List.head?_cons, Option.some.injEq] at hh
      subst hh
      simp [hne]
  · cases acc with
    | nil => simp at hh
    | cons x t => simpa using hh

theorem buildStructured_head : ∀ (ps : List (List Char × List Char))
    (acc : List (String × String)) (a : String × String),
    a.1 = "Enquirer Reply" →
    (∀ p ∈ ps, String.mk (pyStripL p.1) ≠ "Enquirer Reply") →
    acc.head? = some a →
    (buildStructured acc ps).head? = some a := by
  intro ps
  induction ps with
  | nil => intro acc a _ _ hh; exact hh
  | cons p rest ih =>
    intro acc a ha hps hh
    obtain ⟨tp, cp⟩ := p
    simp only [buildStructured]
    split
    · exact ih acc a ha (fun q hq => hps q (List.mem_cons_of_mem _ hq)) hh
    · refine ih _ a ha (fun q hq => hps q (List.mem_cons_of_mem _ hq)) ?_
      refine insertLWW_head acc _ _ a ?_ hh
      exact fun hk => hps (tp, cp) (List.mem_cons_self _ _) (hk.symm.trans ha)

/-- C4 (amended): nonempty text before the first heading is captured as the
first section under the raw title "Enquirer Reply" (as long as no heading
re-uses that title), which is displayed as "Initial Response"; its body is
the trimmed leading text with one "Enquirer Reply" marker and then one
"Hello," greeting removed — so a "Hello," prefix can survive only when the
text right after the first greeting begins with a second one. -/
theorem c4_leading_section (answer : String)
    (h1 : pyStripL (splitSecs answer).1 ≠ [])
    (h2 : ∀ p ∈ (splitSecs answer).2,
      String.mk (pyStripL p.1) ≠ "Enquirer Reply") :
    (structureFn answer).head? =
      some ("Enquirer Reply",
        String.mk (dropHello (dropEnq (pyStripL (splitSecs answer).1)))) ∧
    renameTitle "Enquirer Reply" = "Initial Response" ∧
    ∀ l : List Char,
      ciStarts "Hello,".data ((dropHello l).dropWhile isPyWS) = true →
      ciStarts "Hello,".data
        (((l.dropWhile isPyWS).drop 6).dropWhile isPyWS) = true := by
  refine ⟨?_, by decide, ?_⟩
  · have hhead := buildStructured_head (splitSecs answer).2
      [("Enquirer Reply",
        String.mk (dropHello (dropEnq (pyStripL (splitSecs answer).1))))]
      ("Enquirer Reply",
        String.mk (dropHello (dropEnq (pyStripL (splitSecs answer).1))))
      rfl h2 rfl
    have hne : buildStructured
        [("Enquirer Reply",
          String.mk (dropHello (dropEnq (pyStripL (splitSecs answer).1))))]
        (splitSecs answer).2 ≠ [] := by
      intro hnil
      rw [hnil] at hhead
      simp at hhead
    simp only [structureFn]
    split
    · next hc => exact absurd (by simpa using hc) h1
    · split
      · next hd => exact absurd (by simpa using hd) hne
      · exact hhead
  · intro l hl
    simp only [dropHello] at hl
    by_cases hb : ciStarts "Hello,".data (l.dropWhile isPyWS) = true
    · rw [if_pos hb] at hl
      rwa [dropWhile_dropWhile] at hl
    · rw [if_neg hb] at hl
      exact absurd hl hb

/-- C4 witness: the amended statement instantiated at
`"Hi there\n### T\nx"`, whose leading text is nonempty. -/
theorem c4_witness :
    (pyStripL (splitSecs "Hi there\n### T\nx").1 ≠ []) ∧
    ((∀ p ∈ (splitSecs "Hi there\n### T\nx").2,
      String.mk (pyStripL p.1) ≠ "Enquirer Reply") ∧
    ((structureFn "Hi there\n### T\nx").head? =
      some ("Enquirer Reply",
        String.mk (dropHello (dropEnq
          (pyStripL (splitSecs "Hi there\n### T\nx").1)))) ∧
    renameTitle "Enquirer Reply" = "Initial Response" ∧
    ∀ l : List Char,
      ciStarts "Hello,".data ((dropHello l).dropWhile isPyWS) = true →
      ciStarts "Hello,".data
        (((l.dropWhile isPyWS).drop 6).dropWhile isPyWS) = true)) :=
  ⟨by decide, by decide,
    c4_leading_section "Hi there\n### T\nx" (by decide) (by decide)⟩

/-!  # Claims C5, C6 and C9 -/

/-- C5, counterexample: a well-formed body without `query` does not get a
400-class response — the route raises an uncaught `AttributeError` (a
500-class failure once Flask handles it).  No document is written and no
email is dispatched. -/
theorem c5_counterexample :
    generateResponse (some reqNoQuery) oracleTest =
      ⟨Outcome.exn "AttributeError", none, false⟩ ∧
    ¬ ∃ code body, (generateResponse (some reqNoQuery) oracleTest).outcome =
        Outcome.resp code body ∧ 400 ≤ code ∧ code < 500 := by
  have h : generateResponse (some reqNoQuery) oracleTest =
      ⟨Outcome.exn "AttributeError", none, false⟩ := by decide
  refine ⟨h, ?_⟩
  rintro ⟨code, body, hc, -⟩
  rw [h] at hc
  exact Outcome.noConfusion hc

/-- C5 (amended): for every parsed payload without `query` the route ends
in an uncaught `AttributeError` (hence a 500-class error, not a 400), and
still writes no document and dispatches no email. -/
theorem c5_missing_query (data : ReqData) (o : Oracle)
    (h : data.query = none) :
    generateResponse (some data) o =
      ⟨Outcome.exn "AttributeError", none, false⟩ := by
  simp only [generateResponse, h]
  cases hf : o.faissLoaded <;> simp [hf]

/-- C5 witness: the amended statement at the concrete query-free payload. -/
theorem c5_witness :
    reqNoQuery.query = none ∧
    generateResponse (some reqNoQuery) oracleTest =
      ⟨Outcome.exn "AttributeError", none, false⟩ :=
  ⟨by decide, c5_missing_query reqNoQuery oracleTest (by decide)⟩

/-- C6: when the stripped initial completion is longer than 1500
characters the review pass is skipped and `generate_reviewed_response`
returns that draft verbatim — no sign-off stripping, no context cut, no
2000-character truncation. -/
theorem c6_review_skip (gpt : Gpt) (prompt discipline : String)
    (h : 1500 < (pyStrip (gpt.complete prompt)).length) :
    generateReviewedResponse gpt prompt discipline =
      pyStrip (gpt.complete prompt) := by
  simp only [generateReviewedResponse, if_pos h]

set_option maxRecDepth 100000 in
/-- C6 witness: a 1501-character draft is returned verbatim. -/
theorem c6_witness :
    1500 < (pyStrip (gptBig.complete "p")).length ∧
    generateReviewedResponse gptBig "p" "Accounting" =
      pyStrip (gptBig.complete "p") := by
  have hlen : 1500 < (pyStrip (gptBig.complete "p")).length := by decide
  exact ⟨hlen, c6_review_skip gptBig "p" "Accounting" hlen⟩

/-- C9: with a query present but no recipient email at all, the route
returns 400 "No valid email addresses provided." only after the document
has been rendered and saved, and no email is dispatched. -/
theorem c9_no_recipients (data : ReqData) (o : Oracle) (q : String)
    (hq : data.query = some q)
    (hu : data.userEmail = none)
    (hs : data.supervisorEmail = none)
    (hh : data.hrEmail = none) :
    ∃ doc, generateResponse (some data) o =
      ⟨Outcome.resp 400 "No valid email addresses provided.",
       some doc, false⟩ := by
  simp only [generateResponse, hq]
  have hrec : ∀ fn sn, buildRecipients data fn sn = [] := by
    intro fn sn
    simp [buildRecipients, hu, hs, hh, optTruthy]
  simp [hrec]

/-- C9 witness: the concrete recipient-free request saves a document and
is then rejected with 400. -/
theorem c9_witness :
    reqNoEmails.query = some "How are accruals reported?" ∧
    ∃ doc, generateResponse (some reqNoEmails) oracleTest =
      ⟨Outcome.resp 400 "No valid email addresses provided.",
       some doc, false⟩ :=
  ⟨rfl, c9_no_recipients reqNoEmails oracleTest
    "How are accruals reported?" rfl rfl rfl rfl⟩

/-!  # Claims C7 and C8 -/

/-- C7: every section whose (display) title is exactly "Action Sheet" or
"Policy Notes" is rendered as an uppercased heading followed by the
numbered entries: each line stripped of its manual bullet/number marker
and blank lines dropped; in particular `"1. Do X"` and `"- Do X"` both
normalise to the entry body `"Do X"`. -/
theorem c7_numbered_sections (pre post : List (String × String))
    (t b fullName queryText g f : String)
    (h : t = "Action Sheet" ∨ t = "Policy Notes") :
    (∃ l r, renderDoc (pre ++ (t, b) :: post) fullName queryText g f =
      l ++ (Block.para (pyUpper t) :: (numberedEntries b).map Block.item) ++ r) ∧
    numberedEntries "1. Do X\n- Do X" = ["Do X", "Do X"] ∧
    numberedEntries "1. Do X\n\n- Do X\n-  \n" = ["Do X", "Do X"] := by
  refine ⟨?_, by decide, by decide⟩
  refine ⟨renderHeader fullName queryText g ++
      (pre.map renderSection).flatten,
    (post.map renderSection).flatten ++ renderFooter f, ?_⟩
  have hsec : renderSection (t, b) =
      Block.para (pyUpper t) :: (numberedEntries b).map Block.item := by
    rcases h with rfl | rfl <;> simp [renderSection, renameTitle]
  simp [renderDoc, hsec, List.append_assoc]

/-- C8: whatever the structured answer, the rendered document ends with
the fixed empty line, divider, disclaimer, copyright line, and the
recomputed timestamp footer. -/
theorem c8_fixed_footer (structured : List (String × String))
    (fullName queryText g f : String) :
    ∃ l, renderDoc structured fullName queryText g f =
      l ++ [Block.para "", Block.para divider, Block.para disclaimerText,
            Block.para copyrightText,
            Block.para ("Report generated on " ++ f)] := by
  refine ⟨renderHeader fullName queryText g ++
    (structured.map renderSection).flatten, ?_⟩
  simp [renderDoc, renderFooter, List.append_assoc]

/-- C7 witness: the numbered rendering at a concrete "Action Sheet"
section. -/
theorem c7_witness :
    (∃ l r, renderDoc ([] ++ ("Action Sheet", "1. Do X\n- Do X") :: [])
        "N" "Q" "G" "F" =
      l ++ (Block.para (pyUpper "Action Sheet") ::
        (numberedEntries "1. Do X\n- Do X").map Block.item) ++ r) ∧
    numberedEntries "1. Do X\n- Do X" = ["Do X", "Do X"] ∧
    numberedEntries "1. Do X\n\n- Do X\n-  \n" = ["Do X", "Do X"] :=
  c7_numbered_sections [] [] "Action Sheet" "1. Do X\n- Do X"
    "N" "Q" "G" "F" (Or.inl rfl)

/-!  # Claim C10 -/

/-- C10, counterexample: the heading variant `"###  ORIGINAL QUERY"` (two
spaces) is not matched by the removal pattern, survives the cleanup, and
the structuring step then produces a section titled exactly
"ORIGINAL QUERY" (titles are stripped before use). -/
theorem c10_counterexample :
    cleanAnswer "###  ORIGINAL QUERY\nbody" = "###  ORIGINAL QUERY\nbody" ∧
    structureFn (cleanAnswer "###  ORIGINAL QUERY\nbody") =
      [("ORIGINAL QUERY", "body")] ∧
    "ORIGINAL QUERY" ∈
      (structureFn (cleanAnswer "###  ORIGINAL QUERY\nbody")).map Prod.fst := by
  refine ⟨by decide, by decide, by decide⟩

theorem dropToHashes_length : ∀ l : List Char,
    (dropToHashes l).length ≤ l.length := by
  intro l
  induction l with
  | nil => simp [dropToHashes]
  | cons c rest ih =>
    simp only [dropToHashes]
    split
    · simp
    · exact le_trans ih (by simp)

theorem removeOQF_congr_fuel : ∀ (f₁ : Nat) (f₂ : Nat) (l : List Char),
    l.length < f₁ → l.length < f₂ → removeOQF f₁ l = removeOQF f₂ l := by
  intro f₁
  induction f₁ with
  | zero => intro f₂ l h₁ _; omega
  | succ g ih =>
    intro f₂ l h₁ h₂
    cases l with
    | nil =>
      cases f₂ with
      | zero => omega
      | succ m => rfl
    | cons c rest =>
      cases f₂ with
      | zero => omega
      | succ m =>
        simp only [removeOQF]
        split
        · refine ih m (dropToHashes (rest.drop 17)) ?_ ?_ <;>
          · have := dropToHashes_length (rest.drop 17)
            have := List.length_drop 17 rest
            simp only [List.length_cons] at h₁ h₂
            omega
        · rw [ih m rest (by simp at h₁; omega) (by simp at h₂; omega)]

theorem dropToHashes_append (a t : List Char) (h : ∀ c ∈ a, c ≠ '#') :
    dropToHashes (a ++ t) = dropToHashes t := by
  induction a with
  | nil => rfl
  | cons c r ih =>
    have hc : c ≠ '#' := h c (List.mem_cons_self _ _)
    simp only [List.cons_append, dropToHashes]
    rw [if_neg (by simp [startsL, Ne.symm hc])]
    exact ih (fun x hx => h x (List.mem_cons_of_mem _ hx))

theorem dropToHashes_of_starts (t : List Char)
    (h : startsL "###".data t = true) : dropToHashes t = t := by
  cases t with
  | nil => simp [startsL] at h
  | cons c rest => simp only [dropToHashes]; rw [if_pos h]

theorem removeOQF_nil_input (f : Nat) : removeOQF f [] = [] := by
  cases f <;> rfl

/-- C10 (amended): the cleanup pass removes every section introduced by the
exact single-space heading `"### ORIGINAL QUERY"` followed by a newline —
together with its body up to the next `"###"` or the end of the text, after
which scanning resumes — so such sections never reach the structuring step
(a heading-only answer collapses to the "Initial Response" fallback).
Heading variants with different internal whitespace are not matched and can
still produce a structured section titled "ORIGINAL QUERY". -/
theorem c10_original_query_removal (body tail : String)
    (hb : ∀ c ∈ body.data, c ≠ '#')
    (ht : startsL "###".data tail.data = true) :
    cleanAnswer ("### ORIGINAL QUERY\n" ++ body) = "" ∧
    structureFn (cleanAnswer ("### ORIGINAL QUERY\n" ++ body)) =
      [("Initial Response", "")] ∧
    removeOQ (("### ORIGINAL QUERY\n" ++ body ++ tail).data) =
      removeOQ tail.data := by
  have hbody : ∀ c ∈ ('\n' :: body.data), c ≠ '#' := by
    intro c hc
    rcases List.mem_cons.mp hc with rfl | hc
    · decide
    · exact hb c hc
  have e3 : dropToHashes ('\n' :: body.data) = [] := by
    calc dropToHashes ('\n' :: body.data)
        = dropToHashes (('\n' :: body.data) ++ []) := by rw [List.append_nil]
      _ = dropToHashes [] := dropToHashes_append _ _ hbody
      _ = [] := rfl
  have hA : removeOQ (("### ORIGINAL QUERY\n" ++ body).data) = [] := by
    have e1 : ("### ORIGINAL QUERY\n" ++ body).data =
        '#' :: ("## ORIGINAL QUERY\n".data ++ body.data) := rfl
    have hoq : isOQAt
        ('#' :: ("## ORIGINAL QUERY\n".data ++ body.data)) = true := rfl
    simp only [removeOQ]
    rw [e1]
    simp only [removeOQF]
    rw [if_pos hoq]
    rw [show ("## ORIGINAL QUERY\n".data ++ body.data).drop 17 =
        '\n' :: body.data from rfl]
    rw [e3]
    exact removeOQF_nil_input _
  have hclean : cleanAnswer ("### ORIGINAL QUERY\n" ++ body) = "" := by
    simp only [cleanAnswer]
    rw [hA]
    rfl
  refine ⟨hclean, by rw [hclean]; decide, ?_⟩
  have e1 : ("### ORIGINAL QUERY\n" ++ body ++ tail).data =
      '#' :: ("## ORIGINAL QUERY\n".data ++ (body.data ++ tail.data)) := rfl
  have hoq : isOQAt
      ('#' :: ("## ORIGINAL QUERY\n".data ++ (body.data ++ tail.data))) =
      true := rfl
  simp only [removeOQ]
  rw [e1]
  simp only [removeOQF]
  rw [if_pos hoq]
  rw [show ("## ORIGINAL QUERY\n".data ++ (body.data ++ tail.data)).drop 17 =
      ('\n' :: body.data) ++ tail.data from rfl]
  rw [dropToHashes_append _ _ hbody, dropToHashes_of_starts _ ht]
  have h18 : ("## ORIGINAL QUERY\n".data).length = 18 := rfl
  refine removeOQF_congr_fuel _ _ _ ?_ ?_
  · simp only [List.length_cons, List.length_append, h18]
    omega
  · omega

/-- C10 witness: a conforming "### ORIGINAL QUERY" section is removed, both
at the end of the answer and in front of a kept "###" heading. -/
theorem c10_witness :
    (∀ c ∈ ("The user asked about VAT.").data, c ≠ '#') ∧
    (startsL "###".data ("### Next Steps\nFile.").data = true ∧
    (cleanAnswer ("### ORIGINAL QUERY\n" ++ "The user asked about VAT.") =
       "" ∧
     structureFn
       (cleanAnswer ("### ORIGINAL QUERY\n" ++ "The user asked about VAT.")) =
       [("Initial Response", "")] ∧
     removeOQ (("### ORIGINAL QUERY\n" ++ "The user asked about VAT." ++
         "### Next Steps\nFile.").data) =
       removeOQ ("### Next Steps\nFile.").data)) :=
  ⟨by decide, by decide,
    c10_original_query_removal "The user asked about VAT."
      "### Next Steps\nFile." (by decide) (by decide)⟩
